import Mathlib

/-!
Verification development for the a2a-json-rpc repository: a JSON-RPC 2.0
protocol engine specialised for the A2A task-exchange protocol.  The engine
source (protocol.py, models.py, json_rpc_errors.py, a2a_error_codes.py) is
not present under src/ (only a2a_errors.py and the test suite are), so those
parts are modelled from the specification, as marked on each definition.
-/

/-- JSON values, as handled by the engine.  Numbers are modelled as integers
(no claim involves fractional numeric payloads). -/
inductive Json where
  | null
  | bool (b : Bool)
  | num (n : Int)
  | str (s : String)
  | arr (elems : List Json)
  | obj (fields : List (String × Json))

/-- First-match lookup of a key in a JSON object field list, mirroring
Python dict lookup on parsed JSON objects. -/
def lookupField (fields : List (String × Json)) (key : String) : Option Json :=
  match fields with
  | [] => none
  | (k, v) :: rest => if k = key then some v else lookupField rest key

/-- Field access on a JSON value: defined only for objects. -/
def Json.getField (j : Json) (key : String) : Option Json :=
  match j with
  | .obj fields => lookupField fields key
  | _ => none

/-- Modelled from the spec: the json_rpc_error_codes module is missing from
src/.  Fixed codes of the reserved JSON-RPC error kinds (spec section 3:
codes in the -32700..-32600 range; the -32601 value is fixed by the spec
section 8 scenario for method-not-found). -/
def PARSE_ERROR : Int := -32700

/-- Modelled from the spec: fixed code of InvalidRequestError. -/
def INVALID_REQUEST : Int := -32600

/-- Modelled from the spec: fixed code of MethodNotFoundError. -/
def METHOD_NOT_FOUND : Int := -32601

/-- Modelled from the spec: fixed code of InternalError. -/
def INTERNAL_ERROR : Int := -32603

/-- Modelled from the spec: the JSONRPCError base class (json_rpc_errors.py
is missing from src/).  An error value carries a fixed numeric code, a
caller-supplied message and an optional data payload (spec section 3,
Error object). -/
structure JSONRPCError where
  code : Int
  message : String
  data : Option Json

/-- Modelled from the spec: serialisation of an error to a JSON object
(Error object of spec section 3: code, message, optional data). -/
def JSONRPCError.to_dict (e : JSONRPCError) : Json :=
  match e.data with
  | none => .obj [("code", .num e.code), ("message", e.message |> .str)]
  | some d => .obj [("code", .num e.code), ("message", e.message |> .str), ("data", d)]

/-- Modelled from the spec: the A2AErrorCode enumeration (a2a_error_codes.py
is missing from src/).  The A2A-specific contiguous code block of spec
section 3, in the order listed there. -/
inductive A2AErrorCode where
  | TASK_NOT_FOUND
  | TASK_NOT_CANCELABLE
  | PUSH_NOTIFICATIONS_NOT_SUPPORTED
  | UNSUPPORTED_OPERATION
  | CONTENT_TYPE_NOT_SUPPORTED
  | INVALID_AGENT_RESPONSE
  | AUTHENTICATED_EXTENDED_CARD_NOT_CONFIGURED
deriving DecidableEq, Fintype, Repr

/-- Modelled from the spec: the numeric value of each member of the A2A
code block (section 8 fixes TASK_NOT_FOUND at -32001 and the block is
contiguous in the listed order). -/
def A2AErrorCode.value : A2AErrorCode → Int
  | .TASK_NOT_FOUND => -32001
  | .TASK_NOT_CANCELABLE => -32002
  | .PUSH_NOTIFICATIONS_NOT_SUPPORTED => -32003
  | .UNSUPPORTED_OPERATION => -32004
  | .CONTENT_TYPE_NOT_SUPPORTED => -32005
  | .INVALID_AGENT_RESPONSE => -32006
  | .AUTHENTICATED_EXTENDED_CARD_NOT_CONFIGURED => -32007

/-- The seven A2A domain error classes declared in
src/src/a2a_json_rpc/a2a_errors.py. -/
inductive A2AErrorKind where
  | TaskNotFoundError
  | TaskNotCancelableError
  | PushNotificationsNotSupportedError
  | UnsupportedOperationError
  | ContentTypeNotSupportedError
  | InvalidAgentResponseError
  | AuthenticatedExtendedCardNotConfiguredError
deriving DecidableEq, Fintype, Repr

/-- The CODE class attribute of each class in
src/src/a2a_json_rpc/a2a_errors.py. -/
def A2AErrorKind.CODE : A2AErrorKind → A2AErrorCode
  | .TaskNotFoundError => .TASK_NOT_FOUND
  | .TaskNotCancelableError => .TASK_NOT_CANCELABLE
  | .PushNotificationsNotSupportedError => .PUSH_NOTIFICATIONS_NOT_SUPPORTED
  | .UnsupportedOperationError => .UNSUPPORTED_OPERATION
  | .ContentTypeNotSupportedError => .CONTENT_TYPE_NOT_SUPPORTED
  | .InvalidAgentResponseError => .INVALID_AGENT_RESPONSE
  | .AuthenticatedExtendedCardNotConfiguredError => .AUTHENTICATED_EXTENDED_CARD_NOT_CONFIGURED

/-- Constructing a domain error instance: the class of kind k built with a
message and optional data carries the numeric value of the CODE of its
class (a2a_errors.py classes construct through the JSONRPCError base). -/
def mkA2AError (k : A2AErrorKind) (message : String) (data : Option Json) : JSONRPCError :=
  { code := k.CODE.value, message := message, data := data }

/-- Modelled from the spec: raw transport input to handle() (protocol.py is
missing from src/).  The malformed constructor abstracts any byte sequence
that is not well-formed JSON (json.loads fails); wellFormed carries the
parsed JSON payload. -/
inductive RawInput where
  | malformed
  | wellFormed (payload : Json)

/-- Modelled from the spec: failure modes of envelope parsing (spec section
4.2): ParseError for malformed bytes, InvalidRequestError for a well-formed
payload violating the envelope shape. -/
inductive EnvelopeError where
  | parseFailed
  | invalidRequest
deriving DecidableEq, Repr

/-- Modelled from the spec: a validated envelope.  reqId is none when the
id key is absent (a Notification) and some v when the id key is present
with value v, where v may be Json.null (still a Request, spec section
4.2). -/
structure Envelope where
  method : String
  params : Json
  reqId : Option Json

/-- A Notification is an envelope whose id key was absent (spec glossary). -/
def Envelope.isNotification (e : Envelope) : Bool :=
  e.reqId.isNone

/-- Modelled from the spec: parseEnvelope (spec section 4.2).  Malformed
bytes give ParseError; a well-formed payload that is not an object or has
a missing, non-string or empty method gives InvalidRequestError; otherwise
the envelope is returned, classified as Request or Notification purely by
presence of the id key.  A missing params key is passed on as null. -/
def parseEnvelope : RawInput → Except EnvelopeError Envelope
  | .malformed => .error .parseFailed
  | .wellFormed j =>
    match j with
    | .obj fields =>
      match lookupField fields "method" with
      | some (.str m) =>
        if m = "" then .error .invalidRequest
        else .ok { method := m
                 , params := (lookupField fields "params").getD .null
                 , reqId := lookupField fields "id" }
      | _ => .error .invalidRequest
    | _ => .error .invalidRequest

/-- Modelled from the spec: the outcome of one handler invocation, either a
returned value or a raised exception carrying the exception type name and
message (spec sections 4.3 and 4.4). -/
inductive HandlerOutcome where
  | success (value : Json)
  | failure (excType : String) (excMessage : String)

/-- Modelled from the spec: what a handler call returns before the engine
awaits it: a synchronous handler yields its outcome immediately, an
asynchronous handler yields a pending computation whose completion carries
the outcome (spec section 4.3). -/
inductive HandlerResult where
  | immediate (outcome : HandlerOutcome)
  | deferred (outcome : HandlerOutcome)

/-- Modelled from the spec: the engine awaits a handler result, waiting for
completion of an asynchronous handler before continuing (spec section 4.4,
concurrency note). -/
def awaitResult : HandlerResult → HandlerOutcome
  | .immediate o => o
  | .deferred o => o

/-- A handler is invoked with the method name and the params value. -/
abbrev Handler := String → Json → HandlerResult

/-- Modelled from the spec: the protocol engine object; _methods is the
method registry mapping names to handlers (JSONRPCProtocol of protocol.py,
missing from src/). -/
structure JSONRPCProtocol where
  _methods : List (String × Handler)

/-- Modelled from the spec: registry lookup, first match wins (Python dict
lookup). -/
def lookupHandler (methods : List (String × Handler)) (name : String) : Option Handler :=
  match methods with
  | [] => none
  | (n, h) :: rest => if n = name then some h else lookupHandler rest name

/-- Modelled from the spec: register(name, handler) silently replaces any
previous handler under the same name (spec section 4.3, dict assignment
semantics: the old binding is gone). -/
def JSONRPCProtocol.register (p : JSONRPCProtocol) (name : String) (handler : Handler) :
    JSONRPCProtocol :=
  { _methods := (name, handler) :: p._methods.filter (fun q => q.1 ≠ name) }

/-- Modelled from the spec: create_request builds an outgoing request
envelope with the given id (protocol.py, missing from src/). -/
def JSONRPCProtocol.create_request (method : String) (params : Json) (id : Json) : Json :=
  .obj [("jsonrpc", .str "2.0"), ("id", id), ("method", .str method), ("params", params)]

/-- Modelled from the spec: create_notification builds an outgoing envelope
with no id key at all (protocol.py, missing from src/). -/
def JSONRPCProtocol.create_notification (method : String) (params : Json) : Json :=
  .obj [("jsonrpc", .str "2.0"), ("method", .str method), ("params", params)]

/-- Modelled from the spec: a Response value: the correlation id (Json.null
when null), and exactly one of result or error (spec section 3). -/
structure Response where
  id : Json
  result : Option Json
  error : Option JSONRPCError

/-- An error Response with the given id, code and message and no data. -/
def errResponse (id : Json) (code : Int) (message : String) : Response :=
  { id := id, result := none, error := some { code := code, message := message, data := none } }

/-- Modelled from the spec: the dispatch algorithm of spec section 4.4,
instrumented with the list of handler invocations performed (each entry is
the method and params the handler was called with).  Parse and shape
failures resolve with id null and never reach a handler; an unregistered
method on a Request resolves with the original id and MethodNotFoundError;
a Notification is invoke-and-discard, its handler outcome suppressed and
no Response produced (spec section 7: notifications never receive error
feedback, so an unregistered Notification is also discarded); a Request
resolves with the original id and either the handler value as result or an
InternalError wrapping the failure message. -/
def dispatchTrace (p : JSONRPCProtocol) (raw : RawInput) :
    Option Response × List (String × Json) :=
  match parseEnvelope raw with
  | .error .parseFailed =>
    (some (errResponse .null PARSE_ERROR "Invalid JSON payload"), [])
  | .error .invalidRequest =>
    (some (errResponse .null INVALID_REQUEST "Request validation error"), [])
  | .ok env =>
    match lookupHandler p._methods env.method with
    | none =>
      match env.reqId with
      | none => (none, [])
      | some i =>
        (some (errResponse i METHOD_NOT_FOUND ("Method " ++ env.method ++ " not found")), [])
    | some h =>
      match env.reqId with
      | none => (none, [(env.method, env.params)])
      | some i =>
        match awaitResult (h env.method env.params) with
        | .success v => (some { id := i, result := some v, error := none }, [(env.method, env.params)])
        | .failure _ excMessage =>
          (some (errResponse i INTERNAL_ERROR ("Internal error: " ++ excMessage)),
           [(env.method, env.params)])

/-- Modelled from the spec: handle(raw) returns a Response or nothing
(spec section 4.4, public contract). -/
def JSONRPCProtocol._handle_raw_async (p : JSONRPCProtocol) (raw : RawInput) :
    Option Response :=
  (dispatchTrace p raw).1

/-- Modelled from the spec: an Artifact streaming chunk (spec section 3,
Artifact): content parts, the index of the logical artifact the chunk
belongs to, the append continuation flag and the lastChunk terminal flag. -/
structure Artifact where
  parts : List Json
  index : Nat
  append : Bool
  lastChunk : Bool

/-- Modelled from the spec: validation of the tail of the chunk run of one
index, after its first chunk.  prevLast is the lastChunk flag of the
previous chunk of the run: no chunk may follow a lastChunk=true chunk, every
continuation chunk must have append=true, and the run must end on a chunk
with lastChunk=true (spec section 3, Artifact invariant). -/
def chunkTailOk (prevLast : Bool) : List Artifact → Bool
  | [] => prevLast
  | c :: rest => !prevLast && c.append && chunkTailOk c.lastChunk rest

/-- Modelled from the spec: validation of the full chunk run of one index,
in stream order: the first chunk of a never-seen index must have
append=false, then the tail rule applies (spec section 3, Artifact
invariant).  The empty run is vacuously acceptable. -/
def chunkRunOk : List Artifact → Bool
  | [] => true
  | c :: rest => !c.append && chunkTailOk c.lastChunk rest

/-- The subsequence of chunks of a stream that share one index, in stream
order. -/
def chunksAt (cs : List Artifact) (i : Nat) : List Artifact :=
  cs.filter (fun c => c.index == i)

/-- Modelled from the spec: a streamed artifact chunk sequence is
well-formed when the chunk run of every index occurring in it passes
validation (spec section 3, Artifact invariant). -/
def wellFormedChunkSeq (cs : List Artifact) : Bool :=
  (cs.map (fun c => c.index)).all (fun i => chunkRunOk (chunksAt cs i))

/-- The declarative characterisation of one valid chunk run, as the claim
states it: exactly one first chunk with append=false, followed only by
chunks with append=true, every chunk except the last with lastChunk=false,
and the last chunk with lastChunk=true (so no chunk follows it). -/
def chunkRunSpec (l : List Artifact) : Prop :=
  ∃ c0 rest, l = c0 :: rest ∧ c0.append = false ∧
    (∀ c ∈ rest, c.append = true) ∧
    (∀ c ∈ l.dropLast, c.lastChunk = false) ∧
    (∃ cl, l.getLast? = some cl ∧ cl.lastChunk = true)

/-- Modelled from the spec: construction of the pydantic Response model from
keyword arguments (models.py is missing from src/).  The jsonrpc field
defaults to the "2.0" literal; id is required with no default, so a
construction without the id keyword is a validation failure, while an
explicit null id is accepted; result defaults to None; error defaults to
None and, when given, must be an error object with integer code and string
message. -/
def Response.construct (kwargs : List (String × Json)) : Except String Response :=
  match lookupField kwargs "id" with
  | none => .error "validation error: id field required"
  | some i =>
    match lookupField kwargs "error" with
    | none => .ok { id := i, result := lookupField kwargs "result", error := none }
    | some e =>
      match e with
      | .obj efields =>
        match lookupField efields "code", lookupField efields "message" with
        | some (.num c), some (.str m) =>
          .ok { id := i, result := lookupField kwargs "result"
              , error := some { code := c, message := m, data := lookupField efields "data" } }
        | _, _ => .error "validation error: error object malformed"
      | _ => .error "validation error: error object malformed"

/-- Modelled from the spec: the default model_dump of a Response emits every
field, including fields holding None, as JSON null (models.py is missing
from src/; pydantic model_dump without exclude_none). -/
def Response.model_dump (r : Response) : Json :=
  .obj [ ("jsonrpc", .str "2.0")
       , ("id", r.id)
       , ("result", r.result.getD .null)
       , ("error", match r.error with | none => .null | some e => e.to_dict) ]

/-- The accepted three-chunk scenario for index 0 from spec section 8. -/
def seqGood : List Artifact :=
  [ { parts := [Json.str "<section 1...>"], index := 0, append := false, lastChunk := false }
  , { parts := [Json.str "<section 2...>"], index := 0, append := true, lastChunk := false }
  , { parts := [Json.str "<section 3...>"], index := 0, append := true, lastChunk := true } ]

/-- The rejected scenario from spec section 8: the first chunk of a
never-seen index carries append=true. -/
def seqBad : List Artifact :=
  [ { parts := [Json.str "<section 2...>"], index := 0, append := true, lastChunk := false } ]

/-- An empty protocol engine, as the test fixture constructs it. -/
def emptyProtocol : JSONRPCProtocol := { _methods := [] }

/-- Claim C6: the mapping from the seven A2A domain error kinds to codes is
fixed (TaskNotFoundError -32001 through
AuthenticatedExtendedCardNotConfiguredError -32007) and bijective on the
A2A block: no two kinds share a code, every code of the block belongs to
exactly one kind, and constructing a domain error of any kind with any
message and data then serialising it yields exactly the fixed code of its
kind. -/
theorem a2a_error_code_mapping_bijective :
    (A2AErrorKind.TaskNotFoundError.CODE.value = -32001 ∧
     A2AErrorKind.TaskNotCancelableError.CODE.value = -32002 ∧
     A2AErrorKind.PushNotificationsNotSupportedError.CODE.value = -32003 ∧
     A2AErrorKind.UnsupportedOperationError.CODE.value = -32004 ∧
     A2AErrorKind.ContentTypeNotSupportedError.CODE.value = -32005 ∧
     A2AErrorKind.InvalidAgentResponseError.CODE.value = -32006 ∧
     A2AErrorKind.AuthenticatedExtendedCardNotConfiguredError.CODE.value = -32007) ∧
    (∀ k1 k2 : A2AErrorKind, k1.CODE.value = k2.CODE.value → k1 = k2) ∧
    (∀ c : Int, -32007 ≤ c → c ≤ -32001 → ∃! k : A2AErrorKind, k.CODE.value = c) ∧
    (∀ (k : A2AErrorKind) (msg : String) (d : Option Json),
      (mkA2AError k msg d).code = k.CODE.value ∧
      ((mkA2AError k msg d).to_dict).getField "code" = some (.num k.CODE.value)) := by
  refine ⟨by decide, by decide, ?_, ?_⟩
  · intro c h1 h2
    interval_cases c <;>
      first
        | exact ⟨.TaskNotFoundError, by decide, by decide⟩
        | exact ⟨.TaskNotCancelableError, by decide, by decide⟩
        | exact ⟨.PushNotificationsNotSupportedError, by decide, by decide⟩
        | exact ⟨.UnsupportedOperationError, by decide, by decide⟩
        | exact ⟨.ContentTypeNotSupportedError, by decide, by decide⟩
        | exact ⟨.InvalidAgentResponseError, by decide, by decide⟩
        | exact ⟨.AuthenticatedExtendedCardNotConfiguredError, by decide, by decide⟩
  · intro k msg d
    refine ⟨rfl, ?_⟩
    cases d <;> simp [mkA2AError, JSONRPCError.to_dict, Json.getField, lookupField]

/-- Claim C6 witness: the code -32004 of the A2A block belongs to exactly
one kind. -/
theorem a2a_error_code_mapping_bijective_witness :
    ∃! k : A2AErrorKind, k.CODE.value = -32004 :=
  a2a_error_code_mapping_bijective.2.2.1 (-32004) (by decide) (by decide)

/-- Claim C1: every raw input failing envelope parsing or validation makes
handle() produce a Response with id null — for malformed bytes with the
fixed ParseError code, for a well-formed payload missing the method key
with the fixed InvalidRequestError code, even when the payload carried an
id (the fields list is unrestricted) — and no handler is invoked on these
paths (the invocation trace is empty). -/
theorem handle_parse_and_invalid_request (p : JSONRPCProtocol) :
    (dispatchTrace p .malformed =
      (some (errResponse .null PARSE_ERROR "Invalid JSON payload"), []) ∧
      PARSE_ERROR = -32700) ∧
    (∀ fields, lookupField fields "method" = none →
      dispatchTrace p (.wellFormed (.obj fields)) =
        (some (errResponse .null INVALID_REQUEST "Request validation error"), [])) ∧
    INVALID_REQUEST = -32600 := by
  refine ⟨⟨rfl, rfl⟩, ?_, rfl⟩
  intro fields hm
  simp [dispatchTrace, parseEnvelope, hm]

/-- Claim C1 witness: a payload that carries an id but no method resolves
with id null and the InvalidRequestError code, invoking no handler. -/
theorem handle_parse_and_invalid_request_witness :
    lookupField [("jsonrpc", Json.str "2.0"), ("id", Json.num 1)] "method" = none ∧
    dispatchTrace emptyProtocol
        (.wellFormed (.obj [("jsonrpc", Json.str "2.0"), ("id", Json.num 1)])) =
      (some (errResponse .null INVALID_REQUEST "Request validation error"), []) :=
  ⟨rfl, (handle_parse_and_invalid_request emptyProtocol).2.1 _ rfl⟩

/-- Claim C2: for every Request carrying an id whose method names a
registered handler, synchronous or asynchronous, returning value v
(including null), handle() produces exactly one Response (the option is
some), whose id equals the request id and whose result equals v; the
deferred case is awaited before the Response is produced. -/
theorem handle_request_success (p : JSONRPCProtocol) (fields : List (String × Json))
    (m : String) (i : Json) (h : Handler) (v : Json)
    (hm : lookupField fields "method" = some (.str m)) (hne : m ≠ "")
    (hid : lookupField fields "id" = some i)
    (hh : lookupHandler p._methods m = some h)
    (hv : h m ((lookupField fields "params").getD .null) = .immediate (.success v) ∨
          h m ((lookupField fields "params").getD .null) = .deferred (.success v)) :
    p._handle_raw_async (.wellFormed (.obj fields)) =
      some { id := i, result := some v, error := none } := by
  have hav : awaitResult (h m ((lookupField fields "params").getD .null)) = .success v := by
    rcases hv with h1 | h1 <;> rw [h1] <;> rfl
  simp [JSONRPCProtocol._handle_raw_async, dispatchTrace, parseEnvelope, hm, hne, hid, hh, hav]

/-- Claim C2 witness: an asynchronous handler returning a value yields the
single Response with the original id and that value as result. -/
theorem handle_request_success_witness :
    (JSONRPCProtocol.mk
        [("async_method", fun _ _ => .deferred (.success (.str "async result")))])._handle_raw_async
      (.wellFormed (.obj [ ("jsonrpc", .str "2.0"), ("id", .num 1)
                         , ("method", .str "async_method"), ("params", .obj []) ])) =
      some { id := .num 1, result := some (.str "async result"), error := none } :=
  handle_request_success _ _ "async_method" (.num 1) _ (.str "async result")
    rfl (by decide) rfl rfl (Or.inr rfl)

/-- Claim C3: for every Notification (well-formed envelope with no id key)
naming a registered method, handle() produces no Response whatever the
handler outcome (the handler h is arbitrary, including a raising one, and
the model is total so no exception escapes), while the handler is invoked
exactly once with the params of the Notification (the trace is exactly one
entry). -/
theorem handle_notification_no_response (p : JSONRPCProtocol)
    (fields : List (String × Json)) (m : String) (h : Handler)
    (hm : lookupField fields "method" = some (.str m)) (hne : m ≠ "")
    (hid : lookupField fields "id" = none)
    (hh : lookupHandler p._methods m = some h) :
    dispatchTrace p (.wellFormed (.obj fields)) =
      (none, [(m, (lookupField fields "params").getD .null)]) := by
  simp [dispatchTrace, parseEnvelope, hm, hne, hid, hh]

/-- Claim C3 witness: a Notification whose handler raises is invoked once
with its params and produces no Response. -/
theorem handle_notification_no_response_witness :
    dispatchTrace
        (JSONRPCProtocol.mk
          [("test_event", fun _ _ => .immediate (.failure "ValueError" "boom"))])
        (.wellFormed (.obj [ ("jsonrpc", .str "2.0"), ("method", .str "test_event")
                           , ("params", .obj [("param", .str "value")]) ])) =
      (none, [("test_event", .obj [("param", .str "value")])]) :=
  handle_notification_no_response _ _ "test_event" _ rfl (by decide) rfl rfl

/-- Claim C4: for every Request naming a method that is not registered,
handle() produces a Response with the original id and the fixed
MethodNotFoundError code -32601, whose message contains the requested
method name. -/
theorem handle_method_not_found (p : JSONRPCProtocol) (fields : List (String × Json))
    (m : String) (i : Json)
    (hm : lookupField fields "method" = some (.str m)) (hne : m ≠ "")
    (hid : lookupField fields "id" = some i)
    (hh : lookupHandler p._methods m = none) :
    p._handle_raw_async (.wellFormed (.obj fields)) =
      some (errResponse i METHOD_NOT_FOUND ("Method " ++ m ++ " not found")) ∧
    METHOD_NOT_FOUND = -32601 ∧
    (∃ pre post, "Method " ++ m ++ " not found" = pre ++ m ++ post) := by
  refine ⟨?_, rfl, "Method ", " not found", rfl⟩
  simp [JSONRPCProtocol._handle_raw_async, dispatchTrace, parseEnvelope, hm, hne, hid, hh]

/-- Claim C4 witness: the spec section 8 scenario, a request for the
unregistered method tasks/get with id 1. -/
theorem handle_method_not_found_witness :
    emptyProtocol._handle_raw_async
      (.wellFormed (.obj [ ("jsonrpc", .str "2.0"), ("id", .num 1)
                         , ("method", .str "tasks/get")
                         , ("params", .obj [("id", .str "t1")]) ])) =
      some (errResponse (.num 1) METHOD_NOT_FOUND "Method tasks/get not found") :=
  (handle_method_not_found emptyProtocol
    [ ("jsonrpc", .str "2.0"), ("id", .num 1)
    , ("method", .str "tasks/get")
    , ("params", .obj [("id", .str "t1")]) ] "tasks/get" (.num 1)
    rfl (by decide) rfl rfl).1

/-- Claim C5: for every Request whose registered handler raises, handle()
catches the failure and produces a Response with the original id and the
fixed InternalError code; the right-hand side mentions only the exception
message, never the exception type name t, so the emitted Response is the
same whatever the raised type was and the type name does not reach the
wire. -/
theorem handle_internal_error (p : JSONRPCProtocol) (fields : List (String × Json))
    (m : String) (i : Json) (h : Handler) (t excMessage : String)
    (hm : lookupField fields "method" = some (.str m)) (hne : m ≠ "")
    (hid : lookupField fields "id" = some i)
    (hh : lookupHandler p._methods m = some h)
    (hf : awaitResult (h m ((lookupField fields "params").getD .null)) =
            .failure t excMessage) :
    p._handle_raw_async (.wellFormed (.obj fields)) =
      some (errResponse i INTERNAL_ERROR ("Internal error: " ++ excMessage)) ∧
    INTERNAL_ERROR = -32603 := by
  refine ⟨?_, rfl⟩
  simp [JSONRPCProtocol._handle_raw_async, dispatchTrace, parseEnvelope, hm, hne, hid, hh, hf]

/-- Claim C5 witness: a handler raising ValueError yields the InternalError
Response with the original id; the type name ValueError is absent from the
Response. -/
theorem handle_internal_error_witness :
    (JSONRPCProtocol.mk
        [("error_method", fun _ _ => .immediate (.failure "ValueError" "Something went wrong"))])._handle_raw_async
      (.wellFormed (.obj [ ("jsonrpc", .str "2.0"), ("id", .num 1)
                         , ("method", .str "error_method"), ("params", .obj []) ])) =
      some (errResponse (.num 1) INTERNAL_ERROR "Internal error: Something went wrong") :=
  (handle_internal_error
    (JSONRPCProtocol.mk
      [("error_method", fun _ _ => .immediate (.failure "ValueError" "Something went wrong"))])
    [ ("jsonrpc", .str "2.0"), ("id", .num 1)
    , ("method", .str "error_method"), ("params", .obj []) ]
    "error_method" (.num 1) _ "ValueError" "Something went wrong"
    rfl (by decide) rfl rfl rfl).1

/-- Claim C7: an envelope whose id key is present with value null is
classified as a Request, not a Notification — classification is solely
whether the id key exists — and handle() on such an envelope produces a
Response carrying id null rather than no Response, whatever handler is or
is not registered. -/
theorem null_id_is_request (p : JSONRPCProtocol) (fields : List (String × Json))
    (m : String)
    (hm : lookupField fields "method" = some (.str m)) (hne : m ≠ "")
    (hid : lookupField fields "id" = some .null) :
    (∃ env, parseEnvelope (.wellFormed (.obj fields)) = .ok env ∧
        env.reqId = some .null ∧ env.isNotification = false) ∧
    (∃ r, p._handle_raw_async (.wellFormed (.obj fields)) = some r ∧ r.id = .null) := by
  constructor
  · refine ⟨{ method := m, params := (lookupField fields "params").getD .null
            , reqId := some .null }, ?_, rfl, rfl⟩
    simp [parseEnvelope, hm, hne, hid]
  · cases hh : lookupHandler p._methods m with
    | none =>
      refine ⟨errResponse .null METHOD_NOT_FOUND ("Method " ++ m ++ " not found"), ?_, rfl⟩
      simp [JSONRPCProtocol._handle_raw_async, dispatchTrace, parseEnvelope, hm, hne, hid, hh]
    | some h =>
      cases hav : awaitResult (h m ((lookupField fields "params").getD .null)) with
      | success v =>
        refine ⟨{ id := .null, result := some v, error := none }, ?_, rfl⟩
        simp [JSONRPCProtocol._handle_raw_async, dispatchTrace, parseEnvelope,
              hm, hne, hid, hh, hav]
      | failure t emsg =>
        refine ⟨errResponse .null INTERNAL_ERROR ("Internal error: " ++ emsg), ?_, rfl⟩
        simp [JSONRPCProtocol._handle_raw_async, dispatchTrace, parseEnvelope,
              hm, hne, hid, hh, hav]

/-- Claim C7 witness: a payload with an explicit null id and an
unregistered method still produces a Response, carrying id null. -/
theorem null_id_is_request_witness :
    ∃ r, emptyProtocol._handle_raw_async
          (.wellFormed (.obj [ ("jsonrpc", .str "2.0"), ("id", Json.null)
                             , ("method", .str "test_method") ])) = some r ∧
      r.id = .null :=
  (null_id_is_request emptyProtocol
    [ ("jsonrpc", .str "2.0"), ("id", Json.null), ("method", .str "test_method") ]
    "test_method" rfl (by decide) rfl).2

/-- Claim C8: registering a second handler under an already registered name
silently replaces the first: the doubly registered engine is equal, as a
value, to the engine where only the second handler was ever registered
under that name (so the first handler is gone and can never be invoked),
lookup resolves the name to the second handler, and dispatch behaves
exactly as with the second handler alone. -/
theorem register_overwrites (p : JSONRPCProtocol) (n : String) (h1 h2 : Handler) :
    (p.register n h1).register n h2 = p.register n h2 ∧
    lookupHandler ((p.register n h1).register n h2)._methods n = some h2 ∧
    (∀ raw, dispatchTrace ((p.register n h1).register n h2) raw =
        dispatchTrace (p.register n h2) raw) := by
  have key : (p.register n h1).register n h2 = p.register n h2 := by
    show JSONRPCProtocol.mk _ = JSONRPCProtocol.mk _
    congr 1
    simp [JSONRPCProtocol.register, List.filter_cons, List.filter_filter]
  refine ⟨key, ?_, fun raw => by rw [key]⟩
  rw [key]
  simp [JSONRPCProtocol.register, lookupHandler]

/-- Characterisation of chunkTailOk: the tail of a run after a chunk whose
lastChunk flag is b passes validation exactly when either the run is over
and b closed it, or b left it open and the tail is all append
continuations, closed exactly at its last chunk. -/
theorem chunkTailOk_iff (b : Bool) (l : List Artifact) :
    chunkTailOk b l = true ↔
      ((l = [] ∧ b = true) ∨
       (b = false ∧ (∀ c ∈ l, c.append = true) ∧
        (∀ c ∈ l.dropLast, c.lastChunk = false) ∧
        (∃ cl, l.getLast? = some cl ∧ cl.lastChunk = true))) := by
  induction l generalizing b with
  | nil => simp [chunkTailOk]
  | cons c rest ih =>
    have hstep : chunkTailOk b (c :: rest) = (!b && c.append && chunkTailOk c.lastChunk rest) :=
      rfl
    rw [hstep]
    simp only [Bool.and_eq_true, Bool.not_eq_true']
    rw [ih]
    cases rest with
    | nil =>
      simp [List.forall_mem_cons]
      tauto
    | cons d ds =>
      simp [List.forall_mem_cons]
      tauto

/-- Characterisation of chunkRunOk: a run passes validation exactly when it
is empty or satisfies the declarative run shape of the claim. -/
theorem chunkRunOk_iff (l : List Artifact) :
    chunkRunOk l = true ↔ (l = [] ∨ chunkRunSpec l) := by
  cases l with
  | nil => simp [chunkRunOk]
  | cons c rest =>
    have hstep : chunkRunOk (c :: rest) = (!c.append && chunkTailOk c.lastChunk rest) := rfl
    rw [hstep]
    simp only [Bool.and_eq_true, Bool.not_eq_true']
    rw [chunkTailOk_iff]
    cases rest with
    | nil =>
      constructor
      · rintro ⟨hca, hchar⟩
        rcases hchar with ⟨-, hcl⟩ | ⟨-, -, -, cl, hcl2, -⟩
        · exact Or.inr ⟨c, [], rfl, hca, by simp, by simp, c, by simp, hcl⟩
        · simp at hcl2
      · rintro (h | ⟨c0, rest0, heq, hc0, -, -, cl, hcl2, hcl3⟩)
        · exact absurd h (by simp)
        · injection heq with h1 h2
          subst h1
          subst h2
          simp only [List.getLast?_singleton, Option.some.injEq] at hcl2
          exact ⟨hc0, Or.inl ⟨rfl, hcl2 ▸ hcl3⟩⟩
    | cons d ds =>
      constructor
      · rintro ⟨hca, hchar⟩
        rcases hchar with ⟨h, -⟩ | ⟨hcl, hA, hD, hL⟩
        · exact absurd h (by simp)
        · refine Or.inr ⟨c, d :: ds, rfl, hca, hA, ?_, ?_⟩
          · intro x hx
            rw [List.dropLast_cons₂] at hx
            rcases List.mem_cons.mp hx with rfl | hx2
            · exact hcl
            · exact hD x hx2
          · rw [List.getLast?_cons_cons]
            exact hL
      · rintro (h | ⟨c0, rest0, heq, hc0, hA, hD, hL⟩)
        · exact absurd h (by simp)
        · injection heq with h1 h2
          subst h1
          subst h2
          refine ⟨hc0, Or.inr ⟨?_, hA, ?_, ?_⟩⟩
          · apply hD c
            rw [List.dropLast_cons₂]
            simp
          · intro x hx
            apply hD x
            rw [List.dropLast_cons₂]
            exact List.mem_cons_of_mem c hx
          · simp only [List.getLast?_cons_cons] at hL
            exact hL

/-- Claim C9: a streamed artifact chunk sequence is well-formed exactly
when, for every index value with chunks in the sequence, those chunks are
one first chunk with append=false followed only by append=true chunks, of
which exactly the last carries lastChunk=true with no chunk for that index
after it; moreover the spec section 8 three-chunk sequence for index 0 is
accepted, and a sequence whose first chunk for a never-seen index has
append=true is a validation violation. -/
theorem streaming_chunk_invariant :
    (∀ cs : List Artifact, wellFormedChunkSeq cs = true ↔
        ∀ i, chunksAt cs i ≠ [] → chunkRunSpec (chunksAt cs i)) ∧
    wellFormedChunkSeq seqGood = true ∧
    wellFormedChunkSeq seqBad = false := by
  refine ⟨?_, by rfl, by rfl⟩
  intro cs
  unfold wellFormedChunkSeq
  rw [List.all_eq_true]
  constructor
  · intro hall i hne
    obtain ⟨c, hc⟩ := List.exists_mem_of_ne_nil _ hne
    have hcs : c ∈ cs ∧ c.index == i := by
      have := List.mem_filter.mp hc
      exact ⟨this.1, this.2⟩
    have hidx : i ∈ cs.map (fun c => c.index) :=
      List.mem_map.mpr ⟨c, hcs.1, by simpa using hcs.2⟩
    have hok := hall i hidx
    rw [chunkRunOk_iff] at hok
    rcases hok with h | h
    · exact absurd h hne
    · exact h
  · intro hspec i hidx
    obtain ⟨c, hc, hci⟩ := List.mem_map.mp hidx
    have hmem : c ∈ chunksAt cs i :=
      List.mem_filter.mpr ⟨hc, by simp [hci]⟩
    have hne : chunksAt cs i ≠ [] := List.ne_nil_of_mem hmem
    rw [chunkRunOk_iff]
    exact Or.inr (hspec i hne)

/-- Claim C9 witness: the run of index 0 of the accepted sequence satisfies
the declarative characterisation. -/
theorem streaming_chunk_invariant_witness :
    chunksAt seqGood 0 ≠ [] ∧ chunkRunSpec (chunksAt seqGood 0) :=
  ⟨List.cons_ne_nil _ _,
   (streaming_chunk_invariant.1 seqGood).mp rfl 0 (List.cons_ne_nil _ _)⟩

/-- Claim C10: constructing a Response without the id keyword fails with a
validation error (the field cannot be absent, though an explicit null id
is permitted and kept), and the default dump of a success Response still
emits the unused error field as JSON null rather than omitting it. -/
theorem response_requires_id :
    (∀ kwargs, lookupField kwargs "id" = none →
        Response.construct kwargs = .error "validation error: id field required") ∧
    (∀ j, Response.construct [("id", Json.null), ("result", j)] =
        .ok { id := .null, result := some j, error := none }) ∧
    (∀ r : Response, r.error = none →
        (Response.model_dump r).getField "error" = some .null ∧
        Response.model_dump r =
          .obj [ ("jsonrpc", .str "2.0"), ("id", r.id)
               , ("result", r.result.getD .null), ("error", .null) ]) := by
  refine ⟨?_, ?_, ?_⟩
  · intro kwargs h
    simp [Response.construct, h]
  · intro j
    rfl
  · intro r h
    constructor
    · simp [Response.model_dump, Json.getField, lookupField, h]
    · simp [Response.model_dump, h]

/-- Claim C10 witness: constructing with only a result keyword fails, and
the dump of a success Response carries an explicit null error field. -/
theorem response_requires_id_witness :
    lookupField [("result", Json.obj [("status", Json.str "success")])] "id" = none ∧
    Response.construct [("result", Json.obj [("status", Json.str "success")])] =
      .error "validation error: id field required" ∧
    (Response.model_dump { id := .num 123
                         , result := some (.obj [("status", .str "success")])
                         , error := none }).getField "error" = some .null :=
  ⟨rfl, response_requires_id.1 _ rfl,
   (response_requires_id.2.2 { id := .num 123
                             , result := some (.obj [("status", .str "success")])
                             , error := none } rfl).1⟩
